import Mathlib

/-
Shallow embedding of the appointment-scheduling core of the
latihan-api-pasien service (internal/handlers/handlers.go).

Modelling conventions:
* A `time.Time` instant is a `Nat`: seconds since the Unix epoch.
  The calendar date used by `Format("2006-01-02")` is `ts / 86400`
  (the day number), the time of day used by `Format("15:04:05")` is
  `ts % 86400` (seconds into the day).  The Go string comparisons
  `requestTime < startTime` on zero-padded fixed-width "HH:MM:SS"
  strings agree with numeric comparison of seconds-of-day, so times
  of day are compared as `Nat`s.
* `time.Time.Weekday()` returns Sunday = 0 .. Saturday = 6; epoch day
  0 (1970-01-01) is a Thursday, Go weekday 4.
* The database is a `Store` of three row lists mirroring the tables
  `doctor_time_off`, `doctor_schedules` and `appointments` from the
  schema.  `QueryRow` on a COUNT query yields the count; `QueryRow`
  with `Scan` on a row query yields the first matching row or a
  no-rows error.
* Each availability query result is an `Except Unit` value so that the
  handlers' `if err != nil || ...` fail-closed logic is represented:
  `.error ()` is a store error (including no-rows for the schedule
  lookup), `.ok` a successful result.
-/

namespace Pasien

/-- Appointment status values of the `status` column:
`CONFIRMED` is the schema default on insert, `RESCHEDULED` is set by
the reschedule handler, `CANCELLED` is reserved and never written by
any handler. -/
inductive Status
  | CONFIRMED
  | RESCHEDULED
  | CANCELLED
deriving DecidableEq, Repr

/-- A row of the `appointments` table (handlers.go `Appointment`). -/
structure Appointment where
  id : Nat
  patientId : Nat
  doctorId : Nat
  appointmentDate : Nat
  status : Status
  createdAt : Nat
deriving DecidableEq, Repr

/-- A row of the `doctor_schedules` table: `UNIQUE (doctor_id, day_of_week)`;
start and end times are seconds of day. -/
structure ScheduleRow where
  doctorId : Nat
  dayOfWeek : Nat
  startTime : Nat
  endTime : Nat
deriving DecidableEq, Repr

/-- A row of the `doctor_time_off` table: `UNIQUE (doctor_id, off_date)`;
the date is a day number. -/
structure TimeOffRow where
  doctorId : Nat
  offDate : Nat
deriving DecidableEq, Repr

/-- The persisted state the validator reads and the handlers write. -/
structure Store where
  timeOffs : List TimeOffRow
  schedules : List ScheduleRow
  appointments : List Appointment
deriving DecidableEq, Repr

/-- Day number of an instant, as used by `apptDate.Format("2006-01-02")`. -/
def dateOf (ts : Nat) : Nat := ts / 86400

/-- Seconds of day of an instant, as produced by `Format("15:04:05")`. -/
def timeOfDayOf (ts : Nat) : Nat := ts % 86400

/-- Go `time.Time.Weekday()`: Sunday = 0 .. Saturday = 6.
Epoch day 0 is a Thursday (Go weekday 4). -/
def goWeekday (ts : Nat) : Nat := (ts / 86400 + 4) % 7

/-- The day-of-week value the handlers look schedules up with:
`dayOfWeek := int(apptDate.Weekday()); if dayOfWeek == 0 { dayOfWeek = 7 }`
(handlers.go lines 284-287 and 409-412). -/
def dayOfWeekCode (ts : Nat) : Nat :=
  if goWeekday ts = 0 then 7 else goWeekday ts

/-- Modelled from the spec: the ISO day-of-week convention
Monday = 1 .. Sunday = 7, stated directly (epoch day 0 is a Thursday,
ISO day 4).  Used only to compare against the code-derived
`dayOfWeekCode`. -/
def isoDayOfWeek (ts : Nat) : Nat := (ts / 86400 + 3) % 7 + 1

/-- `SELECT COUNT(*) FROM doctor_time_off WHERE doctor_id = $1 AND off_date = $2`. -/
def timeOffCount (s : Store) (doc date : Nat) : Nat :=
  (s.timeOffs.filter (fun r => r.doctorId == doc && r.offDate == date)).length

/-- `SELECT start_time, end_time FROM doctor_schedules WHERE doctor_id = $1
AND day_of_week = $2`: the first matching row, if any. -/
def scheduleLookup (s : Store) (doc dow : Nat) : Option (Nat × Nat) :=
  (s.schedules.find? (fun r => r.doctorId == doc && r.dayOfWeek == dow)).map
    (fun r => (r.startTime, r.endTime))

/-- `SELECT COUNT(*) FROM appointments WHERE doctor_id = $1 AND
appointment_date = $2` (create path, handlers.go line 299): note there is
no filter on `status`. -/
def conflictCount (s : Store) (doc ts : Nat) : Nat :=
  (s.appointments.filter
    (fun a => a.doctorId == doc && a.appointmentDate == ts)).length

/-- `SELECT COUNT(*) FROM appointments WHERE doctor_id = $1 AND
appointment_date = $2 AND id != $3` (reschedule path, handlers.go line
424): note there is no filter on `status`. -/
def conflictCountExcluding (s : Store) (doc ts exId : Nat) : Nat :=
  (s.appointments.filter
    (fun a => a.doctorId == doc && a.appointmentDate == ts && a.id != exId)).length

/-- The admission decision of the validation block: accept, or reject with
one of the three reason codes (surfaced as 409 responses). -/
inductive Decision
  | accept
  | rejectTimeOff
  | rejectOutsideHours
  | rejectConflict
deriving DecidableEq, Repr

/-- The validation block of `CreateAppointmentHandler`
(handlers.go lines 275-304), abstracted over the three query outcomes.
Each branch mirrors `if err != nil || cond { reject }`: a query error is
folded into the same rejection as the condition being true. -/
def createChecks (timeOffQ : Except Unit Nat) (schedQ : Except Unit (Nat × Nat))
    (conflictQ : Except Unit Nat) (requestTime : Nat) : Decision :=
  match timeOffQ with
  | .error _ => .rejectTimeOff
  | .ok c =>
    if c > 0 then .rejectTimeOff
    else
      match schedQ with
      | .error _ => .rejectOutsideHours
      | .ok (startTime, endTime) =>
        if requestTime < startTime || requestTime > endTime then
          .rejectOutsideHours
        else
          match conflictQ with
          | .error _ => .rejectConflict
          | .ok c2 => if c2 > 0 then .rejectConflict else .accept

/-- The validation block of `RescheduleAppointmentHandler`
(handlers.go lines 400-428), abstracted over the three query outcomes,
transcribed separately from the create path.  The reschedule path scans
start and end as `time.Time` and formats them back to "HH:MM:SS" before
the string comparison, which again agrees with numeric comparison of
seconds of day. -/
def reschedChecks (timeOffQ : Except Unit Nat) (schedQ : Except Unit (Nat × Nat))
    (conflictQ : Except Unit Nat) (requestTime : Nat) : Decision :=
  match timeOffQ with
  | .error _ => .rejectTimeOff
  | .ok c =>
    if c > 0 then .rejectTimeOff
    else
      match schedQ with
      | .error _ => .rejectOutsideHours
      | .ok (startTime, endTime) =>
        if requestTime < startTime || requestTime > endTime then
          .rejectOutsideHours
        else
          match conflictQ with
          | .error _ => .rejectConflict
          | .ok c2 => if c2 > 0 then .rejectConflict else .accept

/-- The schedule query result against a healthy store: `Scan` returns the
row when one exists and the no-rows error otherwise. -/
def storeSchedQ (s : Store) (doc dow : Nat) : Except Unit (Nat × Nat) :=
  match scheduleLookup s doc dow with
  | none => .error ()
  | some w => .ok w

/-- The create-path validation against a healthy store: the COUNT queries
succeed with the actual counts, the schedule lookup errors exactly on
no-rows. -/
def createValidate (s : Store) (doc ts : Nat) : Decision :=
  createChecks (.ok (timeOffCount s doc (dateOf ts)))
    (storeSchedQ s doc (dayOfWeekCode ts))
    (.ok (conflictCount s doc ts))
    (timeOfDayOf ts)

/-- The reschedule-path validation against a healthy store, for a doctor
and with the rescheduled appointment id excluded from the conflict
count. -/
def reschedValidate (s : Store) (doc exId ts : Nat) : Decision :=
  reschedChecks (.ok (timeOffCount s doc (dateOf ts)))
    (storeSchedQ s doc (dayOfWeekCode ts))
    (.ok (conflictCountExcluding s doc ts exId))
    (timeOfDayOf ts)

/-- Modelled from the spec (section 4.2): one validator as a function of
the three availability facts — time-off flag, optional working window,
conflict flag — with inclusive window bounds and the fixed check order.
Used only to show both handler paths implement this single function. -/
def validateSpec (isTimeOff : Bool) (window : Option (Nat × Nat))
    (hasConflict : Bool) (t : Nat) : Decision :=
  if isTimeOff then .rejectTimeOff
  else
    match window with
    | none => .rejectOutsideHours
    | some (st, en) =>
      if st ≤ t ∧ t ≤ en then
        if hasConflict then .rejectConflict else .accept
      else .rejectOutsideHours

/-- `SELECT doctor_id FROM appointments WHERE id = $1`
(handlers.go line 387). -/
def findDoctorOf (s : Store) (apptId : Nat) : Option Nat :=
  (s.appointments.find? (fun a => a.id == apptId)).map (fun a => a.doctorId)

/-- `INSERT INTO appointments (patient_id, doctor_id, appointment_date)`:
a new row with the schema-default status CONFIRMED. -/
def applyCreate (s : Store) (newId patient doc ts cAt : Nat) : Store :=
  { s with appointments :=
      s.appointments ++ [⟨newId, patient, doc, ts, .CONFIRMED, cAt⟩] }

/-- `UPDATE appointments SET appointment_date = $1, status = RESCHEDULED
WHERE id = $2` (handlers.go lines 433-435): every row whose id matches
gets the new date and status, all other rows and columns are untouched. -/
def applyReschedule (s : Store) (apptId newTs : Nat) : Store :=
  { s with appointments := s.appointments.map (fun a =>
      if a.id == apptId then
        { a with appointmentDate := newTs, status := .RESCHEDULED }
      else a) }

/-- The decision the reschedule handler reaches after the appointment
lookup: `none` when the appointment does not exist (404 path). -/
def reschedDecisionOpt (s : Store) (apptId ts : Nat) : Option Decision :=
  (findDoctorOf s apptId).map (fun doc => reschedValidate s doc apptId ts)

/-- The whole reschedule operation on a healthy store: look up the
appointment, validate, and on accept perform the update; `none` covers
both the 404 and every rejection. -/
def rescheduleOp (s : Store) (apptId ts : Nat) : Option Store :=
  match findDoctorOf s apptId with
  | none => none
  | some doc =>
    match reschedValidate s doc apptId ts with
    | .accept => some (applyReschedule s apptId ts)
    | _ => none

/-- Rewrites every appointment status by `g`, leaving every other column
and table unchanged.  Used to state that reschedule never reads a
status. -/
def mapStatus (g : Status → Status) (s : Store) : Store :=
  { s with appointments :=
      s.appointments.map (fun a => { a with status := g a.status }) }

/-- Example store: doctor 1 has a time-off on day 0 and a working window
01:00:00-02:00:00 on Thursday (day-of-week 4; day 0 of the epoch is a
Thursday). -/
def exTimeOffStore : Store :=
  ⟨[⟨1, 0⟩], [⟨1, 4, 3600, 7200⟩], []⟩

/-- Example store: doctor 1 works 01:00:00-02:00:00 on Thursday, no
time-off, no appointments. -/
def exHoursStore : Store :=
  ⟨[], [⟨1, 4, 3600, 7200⟩], []⟩

/-- Example store: doctor 1 works all Thursday; the only appointment at
instant 3600 is CANCELLED. -/
def exCancelledStore : Store :=
  ⟨[], [⟨1, 4, 0, 86399⟩], [⟨7, 2, 1, 3600, .CANCELLED, 0⟩]⟩

/-- Example store: doctor 1 works all Thursday; appointment 5 is
CONFIRMED at instant 3600. -/
def exBookedStore : Store :=
  ⟨[], [⟨1, 4, 0, 86399⟩], [⟨5, 2, 1, 3600, .CONFIRMED, 0⟩]⟩

/-- Example store: doctor 1 works all Thursday; appointment 5 is
CANCELLED at instant 3600. -/
def exCancelledApptStore : Store :=
  ⟨[], [⟨1, 4, 0, 86399⟩], [⟨5, 2, 1, 3600, .CANCELLED, 0⟩]⟩

/-- The response bodies `CreateDoctorHandler` can write (each is one
`http.Error` or the final 201 JSON encode). -/
inductive DoctorResp
  | badNikLength
  | badNikDigits
  | badNameLength
  | badSpecialty
  | conflictDup
  | serverError
  | created
deriving DecidableEq, Repr

/-- The decoded request body of `CreateDoctorHandler`.  Go strings are
modelled as their character lists; for the ASCII inputs of the claims
`len` (bytes) coincides with the list length. -/
structure DoctorInput where
  nik : List Char
  name : List Char
  specialty : List Char
deriving DecidableEq, Repr

/-- Go `strings.TrimSpace`: drop whitespace from both ends. -/
def trimSpace (l : List Char) : List Char :=
  ((l.dropWhile Char.isWhitespace).reverse.dropWhile Char.isWhitespace).reverse

/-- Outcome of the INSERT on the doctors table: success, unique
violation on nik (pg code 23505), or another database error. -/
inductive InsertOutcome
  | ok
  | uniqueViolation
  | otherError
deriving DecidableEq, Repr

/-- `CreateDoctorHandler` (handlers.go lines 174-224) as the sequence of
response bodies written and whether the INSERT was executed.  The digit
check at lines 189-191 writes its 400 error but has no `return`, so on
a 10-character non-digit nik execution continues into the remaining
validations and, when they pass, the INSERT.  The Go regexp `^[0-9]+$`
is reached only when the nik has length 10, where it agrees with all
characters being digits. -/
def createDoctorHandler (d : DoctorInput) (ins : InsertOutcome) :
    List DoctorResp × Bool :=
  if d.nik.length ≠ 10 then ([.badNikLength], false)
  else
    let pre : List DoctorResp :=
      if d.nik.all Char.isDigit then [] else [.badNikDigits]
    if d.name.length < 3 then (pre ++ [.badNameLength], false)
    else if trimSpace d.specialty = [] then (pre ++ [.badSpecialty], false)
    else
      match ins with
      | .ok => (pre ++ [.created], true)
      | .uniqueViolation => (pre ++ [.conflictDup], true)
      | .otherError => (pre ++ [.serverError], true)

/-- Example doctor input whose 10-character nik contains a letter
("12345678a9", name "Budi Santoso", specialty "Umum"). -/
def exDoctorInput : DoctorInput :=
  ⟨['1', '2', '3', '4', '5', '6', '7', '8', 'a', '9'],
   ['B', 'u', 'd', 'i', ' ', 'S', 'a', 'n', 't', 'o', 's', 'o'],
   ['U', 'm', 'u', 'm']⟩

end Pasien

namespace Pasien

/-- C8: the day-of-week value both handler paths look schedules up with
follows the ISO convention Monday = 1 .. Sunday = 7; in particular on a
timestamp whose Go weekday is 0 (a Sunday) the lookup key is 7, not 0.
Both `createValidate` and `reschedValidate` consult `scheduleLookup` at
`dayOfWeekCode`. -/
theorem dayOfWeekCode_iso (ts : Nat) :
    dayOfWeekCode ts = isoDayOfWeek ts ∧
    (goWeekday ts = 0 → dayOfWeekCode ts = 7) := by
  unfold dayOfWeekCode isoDayOfWeek goWeekday
  constructor
  · split <;> omega
  · intro h
    simp [h]

/-- Witness for C8 at instant 259200 (1970-01-04, a Sunday: Go weekday
0): the schedule lookup key is 7. -/
theorem dayOfWeekCode_iso_witness : dayOfWeekCode 259200 = 7 :=
  (dayOfWeekCode_iso 259200).2 (by decide)

/-- C1: a request on a registered time-off date whose time of day is
also outside the working window (or has no window at all) is rejected
with DOCTOR_UNAVAILABLE_TIMEOFF, never OUTSIDE_WORKING_HOURS: the
time-off check at handlers.go lines 276-281 runs before the
working-hours check at lines 289-296 and returns immediately. -/
theorem timeoff_precedes_working_hours
    (s : Store) (doc ts : Nat)
    (hoff : 0 < timeOffCount s doc (dateOf ts))
    (_hout : ∀ st en, scheduleLookup s doc (dayOfWeekCode ts) = some (st, en) →
      timeOfDayOf ts < st ∨ en < timeOfDayOf ts) :
    createValidate s doc ts = Decision.rejectTimeOff := by
  unfold createValidate createChecks
  simp [hoff]

/-- Witness for C1: doctor 1 has day 0 off and instant 0 is outside the
01:00:00-02:00:00 Thursday window; the decision is the time-off
rejection. -/
theorem timeoff_precedes_working_hours_witness :
    createValidate exTimeOffStore 1 0 = Decision.rejectTimeOff := by
  refine timeoff_precedes_working_hours exTimeOffStore 1 0 (by decide) ?_
  intro st en h
  have h2 : some ((3600 : Nat), (7200 : Nat)) = some (st, en) := h
  cases h2
  decide

/-- C2: with no time-off registered for the date, the working-hours
check accepts exactly the times of day t with start ≤ t ≤ end of the
window for the derived day of week (the code rejects when
`requestTime < startTime || requestTime > endTime`, so both boundaries
pass), and rejects with OUTSIDE_WORKING_HOURS both when t is strictly
outside the window and when no window row exists for that day. -/
theorem working_hours_boundary
    (s : Store) (doc ts : Nat)
    (hoff : timeOffCount s doc (dateOf ts) = 0) :
    (scheduleLookup s doc (dayOfWeekCode ts) = none →
      createValidate s doc ts = Decision.rejectOutsideHours) ∧
    ∀ st en, scheduleLookup s doc (dayOfWeekCode ts) = some (st, en) →
      (createValidate s doc ts = Decision.rejectOutsideHours ↔
        (timeOfDayOf ts < st ∨ en < timeOfDayOf ts)) := by
  constructor
  · intro hnone
    unfold createValidate createChecks storeSchedQ
    simp [hoff, hnone]
  · intro st en hsome
    unfold createValidate createChecks storeSchedQ
    rw [hsome]
    simp only [hoff, gt_iff_lt, Nat.lt_irrefl, if_false]
    by_cases h : timeOfDayOf ts < st ∨ en < timeOfDayOf ts
    · simp [h]
    · push_neg at h
      have h1 : ¬ timeOfDayOf ts < st := Nat.not_lt.mpr h.1
      have h2 : ¬ timeOfDayOf ts > en := Nat.not_lt.mpr h.2
      simp [h1, h2]
      split <;> simp

/-- Witness for C2: doctor 1 works 01:00:00-02:00:00 on Thursday and the
request is at exactly the window start (t = 3600 = start), so it is not
rejected for working hours. -/
theorem working_hours_boundary_witness :
    createValidate exHoursStore 1 3600 = Decision.rejectOutsideHours ↔
      (timeOfDayOf 3600 < 3600 ∨ 7200 < timeOfDayOf 3600) :=
  (working_hours_boundary exHoursStore 1 3600 (by decide)).2 3600 7200 (by decide)

/-- The two transcribed validation blocks have identical check logic. -/
lemma reschedChecks_eq_createChecks (q1 : Except Unit Nat)
    (q2 : Except Unit (Nat × Nat)) (q3 : Except Unit Nat) (t : Nat) :
    reschedChecks q1 q2 q3 t = createChecks q1 q2 q3 t := rfl

/-- The check cascade over successful count queries equals the
spec-level validator on the corresponding facts. -/
lemma createChecks_eq_validateSpec (c1 : Nat) (w : Option (Nat × Nat))
    (c3 : Nat) (t : Nat) :
    createChecks (.ok c1)
        (match w with | none => .error () | some x => .ok x)
        (.ok c3) t
      = validateSpec (decide (0 < c1)) w (decide (0 < c3)) t := by
  cases w with
  | none =>
    by_cases h1 : 0 < c1 <;> simp [createChecks, validateSpec, h1]
  | some p =>
    obtain ⟨st, en⟩ := p
    by_cases h1 : 0 < c1
    · simp [createChecks, validateSpec, h1]
    · by_cases h2 : st ≤ t ∧ t ≤ en
      · have hlt : ¬ t < st := Nat.not_lt.mpr h2.1
        have hgt : ¬ t > en := Nat.not_lt.mpr h2.2
        by_cases h3 : 0 < c3 <;>
          simp [createChecks, validateSpec, h1, h2, h3, hlt, hgt]
      · have hor : t < st ∨ en < t := by
          rcases Nat.lt_or_ge t st with h | h
          · exact Or.inl h
          · exact Or.inr (by
              rcases Nat.lt_or_ge en t with h2b | h2b
              · exact h2b
              · exact absurd ⟨h, h2b⟩ h2)
        rcases hor with h | h <;>
          simp [createChecks, validateSpec, h1, h2, h]

/-- C5: on any healthy store, the initial-booking validation and the
reschedule validation (with the self-exclusion id) compute the same
function of the three availability facts — time-off flag, working
window, conflict flag — namely the single spec-level validator; the two
handler code blocks implement one validator consistently. -/
theorem booking_and_reschedule_one_validator (s : Store) (doc exId ts : Nat) :
    createValidate s doc ts =
      validateSpec (decide (0 < timeOffCount s doc (dateOf ts)))
        (scheduleLookup s doc (dayOfWeekCode ts))
        (decide (0 < conflictCount s doc ts)) (timeOfDayOf ts) ∧
    reschedValidate s doc exId ts =
      validateSpec (decide (0 < timeOffCount s doc (dateOf ts)))
        (scheduleLookup s doc (dayOfWeekCode ts))
        (decide (0 < conflictCountExcluding s doc ts exId)) (timeOfDayOf ts) := by
  constructor
  · rw [show createValidate s doc ts
        = createChecks (.ok (timeOffCount s doc (dateOf ts)))
            (match scheduleLookup s doc (dayOfWeekCode ts) with
              | none => .error () | some x => .ok x)
            (.ok (conflictCount s doc ts)) (timeOfDayOf ts) from rfl]
    exact createChecks_eq_validateSpec _ _ _ _
  · rw [show reschedValidate s doc exId ts
        = reschedChecks (.ok (timeOffCount s doc (dateOf ts)))
            (match scheduleLookup s doc (dayOfWeekCode ts) with
              | none => .error () | some x => .ok x)
            (.ok (conflictCountExcluding s doc ts exId)) (timeOfDayOf ts) from rfl]
    rw [reschedChecks_eq_createChecks]
    exact createChecks_eq_validateSpec _ _ _ _

/-- C6: in each of the three checks (both paths), a store error is
folded into the same rejection as the check being true: an error on the
time-off query rejects with the time-off reason, an error on the
schedule query (given the time-off check passed) rejects with the
working-hours reason, an error on the conflict query (given the earlier
checks passed) rejects with the conflict reason; and whenever any query
errors the outcome is never accept.  The codomain `Decision` has no
internal-failure case, matching the handlers returning a 409 rather
than a 500 on these errors. -/
theorem store_error_fails_closed
    (q2 : Except Unit (Nat × Nat)) (q3 : Except Unit Nat) (t st en : Nat) :
    (createChecks (.error ()) q2 q3 t = Decision.rejectTimeOff ∧
      reschedChecks (.error ()) q2 q3 t = Decision.rejectTimeOff) ∧
    (createChecks (.ok 0) (.error ()) q3 t = Decision.rejectOutsideHours ∧
      reschedChecks (.ok 0) (.error ()) q3 t = Decision.rejectOutsideHours) ∧
    (st ≤ t → t ≤ en →
      createChecks (.ok 0) (.ok (st, en)) (.error ()) t = Decision.rejectConflict ∧
      reschedChecks (.ok 0) (.ok (st, en)) (.error ()) t = Decision.rejectConflict) ∧
    (∀ q1 : Except Unit Nat,
      q1 = .error () ∨ q2 = .error () ∨ q3 = .error () →
      createChecks q1 q2 q3 t ≠ Decision.accept ∧
      reschedChecks q1 q2 q3 t ≠ Decision.accept) := by
  refine ⟨⟨rfl, rfl⟩, ⟨by simp [createChecks], by simp [reschedChecks]⟩, ?_, ?_⟩
  · intro h1 h2
    have hlt : ¬ t < st := Nat.not_lt.mpr h1
    have hgt : ¬ t > en := Nat.not_lt.mpr h2
    constructor <;> simp [createChecks, reschedChecks, hlt, hgt]
  · intro q1 hq
    rw [reschedChecks_eq_createChecks]
    suffices h : createChecks q1 q2 q3 t ≠ Decision.accept from ⟨h, h⟩
    cases q1 with
    | error e => simp [createChecks]
    | ok c1 =>
      by_cases h1 : c1 > 0
      · simp [createChecks, h1]
      · cases q2 with
        | error e => simp [createChecks, h1]
        | ok p =>
          obtain ⟨s1, e1⟩ := p
          by_cases h2 : t < s1 || t > e1
          · simp [createChecks, h1, h2]
          · cases q3 with
            | error e => simp [createChecks, h1, h2]
            | ok c3 =>
              rcases hq with hq | hq | hq <;> simp_all

/-- Witness for C6 at t = 10, window boundaries 5 and 20, healthy
conflict query result 0. -/
theorem store_error_fails_closed_witness :
    createChecks (.ok 0) (.ok (5, 20)) (.error ()) 10 = Decision.rejectConflict ∧
    reschedChecks (.ok 0) (.ok (5, 20)) (.error ()) 10 = Decision.rejectConflict :=
  (store_error_fails_closed (.ok (5, 20)) (.error ()) 10 5 20).2.2.1
    (by decide) (by decide)

/-- The conflict count of the create path is positive exactly when some
appointment row — of any status — matches the doctor and instant. -/
lemma conflictCount_pos_iff (s : Store) (doc ts : Nat) :
    0 < conflictCount s doc ts ↔
      ∃ a ∈ s.appointments, a.doctorId = doc ∧ a.appointmentDate = ts := by
  unfold conflictCount
  rw [← List.countP_eq_length_filter, List.countP_pos_iff]
  simp

/-- Inserting an appointment raises the conflict count at its own slot
by one. -/
lemma conflictCount_applyCreate (s : Store) (i p doc ts c : Nat) :
    conflictCount (applyCreate s i p doc ts c) doc ts
      = conflictCount s doc ts + 1 := by
  unfold conflictCount applyCreate
  simp [List.filter_append]

/-- C3 counterexample: in `exCancelledStore` every stored appointment is
CANCELLED, yet a booking for doctor 1 at the occupied instant 3600 is
rejected with SLOT_ALREADY_BOOKED — the conflict query at handlers.go
line 299 has no status filter, so a CANCELLED appointment does cause
rejection, contrary to the claim. -/
theorem cancelled_appointment_blocks_booking :
    createValidate exCancelledStore 1 3600 = Decision.rejectConflict ∧
    ∀ a ∈ exCancelledStore.appointments, a.status = Status.CANCELLED := by
  decide

/-- C3 amended: with the date not on time-off and the time of day inside
the registered window, the booking is rejected with SLOT_ALREADY_BOOKED
exactly when any existing appointment — of any status, CANCELLED
included — occupies precisely the requested instant for that doctor;
in particular after a successful booking is inserted, a second request
for the same (doctor, instant) is rejected with SLOT_ALREADY_BOOKED. -/
theorem conflict_counts_any_status
    (s : Store) (doc ts st en : Nat)
    (hoff : timeOffCount s doc (dateOf ts) = 0)
    (hsched : scheduleLookup s doc (dayOfWeekCode ts) = some (st, en))
    (hst : st ≤ timeOfDayOf ts) (hen : timeOfDayOf ts ≤ en) :
    (createValidate s doc ts = Decision.rejectConflict ↔
      ∃ a ∈ s.appointments, a.doctorId = doc ∧ a.appointmentDate = ts) ∧
    ∀ i p c, createValidate (applyCreate s i p doc ts c) doc ts
      = Decision.rejectConflict := by
  have hlt : ¬ timeOfDayOf ts < st := Nat.not_lt.mpr hst
  have hgt : ¬ timeOfDayOf ts > en := Nat.not_lt.mpr hen
  constructor
  · rw [← conflictCount_pos_iff]
    unfold createValidate createChecks storeSchedQ
    rw [hsched]
    simp only [hoff, gt_iff_lt, Nat.lt_irrefl, if_false]
    by_cases h3 : 0 < conflictCount s doc ts <;> simp [h3, hlt, hgt]
  · intro i p c
    have hoff2 : timeOffCount (applyCreate s i p doc ts c) doc (dateOf ts)
        = 0 := hoff
    have hsched2 : scheduleLookup (applyCreate s i p doc ts c) doc
        (dayOfWeekCode ts) = some (st, en) := hsched
    have hcc : 0 < conflictCount (applyCreate s i p doc ts c) doc ts := by
      rw [conflictCount_applyCreate]
      exact Nat.succ_pos _
    unfold createValidate createChecks storeSchedQ
    rw [hsched2]
    simp [hoff2, hcc, hlt, hgt]

/-- Witness for C3 amended, on the store whose CONFIRMED appointment 5
occupies doctor 1 at instant 3600 inside the Thursday window. -/
theorem conflict_counts_any_status_witness :
    (createValidate exBookedStore 1 3600 = Decision.rejectConflict ↔
      ∃ a ∈ exBookedStore.appointments,
        a.doctorId = 1 ∧ a.appointmentDate = 3600) ∧
    ∀ i p c, createValidate (applyCreate exBookedStore i p 1 3600 c) 1 3600
      = Decision.rejectConflict :=
  conflict_counts_any_status exBookedStore 1 3600 0 86399
    (by decide) (by decide) (by decide) (by decide)

/-- C4: a reschedule of appointment `a` to its own current instant is
never rejected as a conflict against itself: the reschedule conflict
query (handlers.go line 424) excludes the appointment id, so when no
other appointment shares the slot the excluded count is zero and the
decision cannot be SLOT_ALREADY_BOOKED. -/
theorem reschedule_self_excluded
    (s : Store) (apptId : Nat) (a : Appointment)
    (hfind : s.appointments.find? (fun b => b.id == apptId) = some a)
    (huniq : ∀ b ∈ s.appointments, b.doctorId = a.doctorId →
      b.appointmentDate = a.appointmentDate → b.id = a.id) :
    conflictCountExcluding s a.doctorId a.appointmentDate apptId = 0 ∧
    reschedValidate s a.doctorId apptId a.appointmentDate
      ≠ Decision.rejectConflict := by
  have hid : a.id = apptId := by
    have h := List.find?_some hfind
    simpa using h
  have hcc : conflictCountExcluding s a.doctorId a.appointmentDate apptId
      = 0 := by
    unfold conflictCountExcluding
    rw [← List.countP_eq_length_filter, List.countP_eq_zero]
    intro b hb
    simp only [Bool.and_eq_true, beq_iff_eq, bne_iff_ne, ne_eq, not_and]
    intro h1 h2
    exact h2 (by rw [huniq b hb h1.1 h1.2, hid])
  refine ⟨hcc, ?_⟩
  unfold reschedValidate reschedChecks storeSchedQ
  rw [hcc]
  by_cases h1 : timeOffCount s a.doctorId (dateOf a.appointmentDate) > 0
  · simp [h1]
  · cases hw : scheduleLookup s a.doctorId (dayOfWeekCode a.appointmentDate) with
    | none => simp [h1]
    | some w =>
      obtain ⟨st, en⟩ := w
      by_cases h2 : timeOfDayOf a.appointmentDate < st
        ∨ timeOfDayOf a.appointmentDate > en
      · rcases h2 with h2 | h2 <;> simp [h1, h2]
      · push_neg at h2
        have hlt : ¬ timeOfDayOf a.appointmentDate < st := Nat.not_lt.mpr h2.1
        have hgt : ¬ timeOfDayOf a.appointmentDate > en := Nat.not_lt.mpr h2.2
        simp [h1, hlt, hgt]

/-- Witness for C4: appointment 5 (doctor 1, instant 3600) in
`exBookedStore` rescheduled onto its own instant is not a
self-conflict. -/
theorem reschedule_self_excluded_witness :
    conflictCountExcluding exBookedStore 1 3600 5 = 0 ∧
    reschedValidate exBookedStore 1 5 3600 ≠ Decision.rejectConflict :=
  reschedule_self_excluded exBookedStore 5
    ⟨5, 2, 1, 3600, .CONFIRMED, 0⟩ (by decide) (by decide)

/-- A successful reschedule is exactly the UPDATE applied to the
store. -/
lemma rescheduleOp_some (s : Store) (apptId ts : Nat) (s2 : Store)
    (h : rescheduleOp s apptId ts = some s2) :
    s2 = applyReschedule s apptId ts := by
  unfold rescheduleOp at h
  cases hf : findDoctorOf s apptId with
  | none =>
    simp only [hf] at h
    exact Option.noConfusion h
  | some doc =>
    simp only [hf] at h
    cases hd : reschedValidate s doc apptId ts with
    | accept =>
      simp only [hd] at h
      exact (Option.some.inj h).symm
    | rejectTimeOff =>
      simp only [hd] at h
      exact Option.noConfusion h
    | rejectOutsideHours =>
      simp only [hd] at h
      exact Option.noConfusion h
    | rejectConflict =>
      simp only [hd] at h
      exact Option.noConfusion h

/-- C7: when a reschedule passes validation, the resulting store differs
only in the rescheduled appointment's date and status: the time-off and
schedule tables are untouched, no appointment row is added or removed,
every row keeps its id, patient, doctor and created-at, rows with the
rescheduled id get the new date and status RESCHEDULED, and every other
row is completely unchanged. -/
theorem reschedule_frame
    (s : Store) (apptId ts : Nat) (s2 : Store)
    (h : rescheduleOp s apptId ts = some s2) :
    s2.timeOffs = s.timeOffs ∧ s2.schedules = s.schedules ∧
    s2.appointments.length = s.appointments.length ∧
    ∀ i (hi : i < s.appointments.length) (hi2 : i < s2.appointments.length),
      (s2.appointments.get ⟨i, hi2⟩).id = (s.appointments.get ⟨i, hi⟩).id ∧
      (s2.appointments.get ⟨i, hi2⟩).patientId
        = (s.appointments.get ⟨i, hi⟩).patientId ∧
      (s2.appointments.get ⟨i, hi2⟩).doctorId
        = (s.appointments.get ⟨i, hi⟩).doctorId ∧
      (s2.appointments.get ⟨i, hi2⟩).createdAt
        = (s.appointments.get ⟨i, hi⟩).createdAt ∧
      ((s.appointments.get ⟨i, hi⟩).id = apptId →
        (s2.appointments.get ⟨i, hi2⟩).appointmentDate = ts ∧
        (s2.appointments.get ⟨i, hi2⟩).status = Status.RESCHEDULED) ∧
      ((s.appointments.get ⟨i, hi⟩).id ≠ apptId →
        s2.appointments.get ⟨i, hi2⟩ = s.appointments.get ⟨i, hi⟩) := by
  obtain rfl : s2 = applyReschedule s apptId ts :=
    rescheduleOp_some s apptId ts s2 h
  refine ⟨rfl, rfl, by simp [applyReschedule], ?_⟩
  intro i hi hi2
  have hg : (applyReschedule s apptId ts).appointments.get ⟨i, hi2⟩
      = (fun a => if a.id == apptId then
          { a with appointmentDate := ts, status := .RESCHEDULED }
        else a) (s.appointments.get ⟨i, hi⟩) := by
    show ((s.appointments.map _).get ⟨i, hi2⟩) = _
    rw [List.get_eq_getElem, List.getElem_map, List.get_eq_getElem]
  rw [hg]
  simp only [List.get_eq_getElem]
  by_cases hb : s.appointments[i].id = apptId
  · simp [hb]
  · simp [hb]

/-- Witness for C7 on `exBookedStore`, rescheduling appointment 5 to
instant 7200. -/
theorem reschedule_frame_witness :
    (applyReschedule exBookedStore 5 7200).timeOffs = exBookedStore.timeOffs ∧
    (applyReschedule exBookedStore 5 7200).appointments.length
      = exBookedStore.appointments.length :=
  ⟨(reschedule_frame exBookedStore 5 7200
      (applyReschedule exBookedStore 5 7200) (by decide)).1,
   (reschedule_frame exBookedStore 5 7200
      (applyReschedule exBookedStore 5 7200) (by decide)).2.2.1⟩

/-- A status-only rewrite commutes out of a status-blind find-then-
project. -/
lemma find?_map_status (g : Status → Status) (l : List Appointment)
    (p : Appointment → Bool)
    (hp : ∀ a, p { a with status := g a.status } = p a) :
    ((l.map (fun a => { a with status := g a.status })).find? p).map
        (fun a => a.doctorId)
      = (l.find? p).map (fun a => a.doctorId) := by
  induction l with
  | nil => rfl
  | cons a l ih =>
    rw [List.map_cons]
    by_cases h : p a = true
    · rw [List.find?_cons_of_pos _ (by rw [hp]; exact h),
        List.find?_cons_of_pos _ h]
      rfl
    · rw [List.find?_cons_of_neg _ (by rw [hp]; exact h),
        List.find?_cons_of_neg _ h]
      exact ih

/-- A status-only rewrite leaves any status-blind count unchanged. -/
lemma countP_map_status (g : Status → Status) (l : List Appointment)
    (p : Appointment → Bool)
    (hp : ∀ a, p { a with status := g a.status } = p a) :
    (l.map (fun a => { a with status := g a.status })).countP p
      = l.countP p := by
  rw [List.countP_map]
  congr 1
  funext a
  exact hp a

/-- The appointment lookup of the reschedule handler ignores statuses. -/
lemma findDoctorOf_mapStatus (g : Status → Status) (s : Store)
    (apptId : Nat) :
    findDoctorOf (mapStatus g s) apptId = findDoctorOf s apptId := by
  unfold findDoctorOf mapStatus
  exact find?_map_status g s.appointments _ (fun a => rfl)

/-- The excluding conflict count ignores statuses. -/
lemma conflictCountExcluding_mapStatus (g : Status → Status) (s : Store)
    (doc ts exId : Nat) :
    conflictCountExcluding (mapStatus g s) doc ts exId
      = conflictCountExcluding s doc ts exId := by
  unfold conflictCountExcluding mapStatus
  rw [← List.countP_eq_length_filter, ← List.countP_eq_length_filter]
  exact countP_map_status g s.appointments _ (fun a => rfl)

/-- C10: the reschedule path never inspects the current status of any
appointment — rewriting every stored status by an arbitrary function
leaves the lookup-plus-validation outcome unchanged — and on any
successful reschedule the rescheduled rows end in status RESCHEDULED,
so in particular a CANCELLED appointment is revived to RESCHEDULED. -/
theorem reschedule_ignores_status
    (s : Store) (apptId ts : Nat) (g : Status → Status) :
    reschedDecisionOpt (mapStatus g s) apptId ts
      = reschedDecisionOpt s apptId ts ∧
    ∀ s2, rescheduleOp s apptId ts = some s2 →
      ∀ a ∈ s2.appointments, a.id = apptId →
        a.status = Status.RESCHEDULED := by
  constructor
  · unfold reschedDecisionOpt
    rw [findDoctorOf_mapStatus]
    cases hf : findDoctorOf s apptId with
    | none => rfl
    | some doc =>
      simp only [Option.map_some']
      have h2 : reschedValidate (mapStatus g s) doc apptId ts
          = reschedValidate s doc apptId ts := by
        unfold reschedValidate
        rw [conflictCountExcluding_mapStatus]
        exact rfl
      rw [h2]
  · intro s2 h a ha hid
    obtain rfl : s2 = applyReschedule s apptId ts :=
      rescheduleOp_some s apptId ts s2 h
    unfold applyReschedule at ha
    simp only [List.mem_map] at ha
    obtain ⟨b, hb, rfl⟩ := ha
    by_cases hb2 : b.id = apptId
    · simp [hb2]
    · simp only [hb2, beq_iff_eq, if_neg] at hid
      exact absurd hid hb2

/-- Witness for C10: on the store whose appointment 5 is CANCELLED, the
decision is unchanged when every status is rewritten to CONFIRMED, and
the row updated by the successful reschedule to instant 7200 has status
RESCHEDULED. -/
theorem reschedule_ignores_status_witness :
    reschedDecisionOpt (mapStatus (fun _ => Status.CONFIRMED)
        exCancelledApptStore) 5 7200
      = reschedDecisionOpt exCancelledApptStore 5 7200 ∧
    (Appointment.mk 5 2 1 7200 Status.RESCHEDULED 0).status
      = Status.RESCHEDULED :=
  ⟨(reschedule_ignores_status exCancelledApptStore 5 7200
      (fun _ => Status.CONFIRMED)).1,
   (reschedule_ignores_status exCancelledApptStore 5 7200
      (fun _ => Status.CONFIRMED)).2
     (applyReschedule exCancelledApptStore 5 7200) (by decide)
     (Appointment.mk 5 2 1 7200 Status.RESCHEDULED 0) (by decide) (by decide)⟩

/-- C9: on a 10-character nik containing a non-digit, with the other
validations passing and a healthy database, `CreateDoctorHandler`
writes the 400 digit error but continues (the check at handlers.go
lines 189-191 has no return), executes the INSERT, and writes a second
(created) response body for the same request. -/
theorem nik_digit_check_missing_return
    (d : DoctorInput) (hlen : d.nik.length = 10)
    (hdig : d.nik.all Char.isDigit = false)
    (hname : 3 ≤ d.name.length) (hspec : trimSpace d.specialty ≠ []) :
    createDoctorHandler d .ok
      = ([DoctorResp.badNikDigits, DoctorResp.created], true) := by
  unfold createDoctorHandler
  simp [hlen, hdig, Nat.not_lt.mpr hname, hspec]

/-- Witness for C9 on the concrete input with nik "12345678a9". -/
theorem nik_digit_check_missing_return_witness :
    createDoctorHandler exDoctorInput .ok
      = ([DoctorResp.badNikDigits, DoctorResp.created], true) :=
  nik_digit_check_missing_return exDoctorInput
    (by decide) (by decide) (by decide) (by decide)

end Pasien
